import Mathlib

/-!
Verification of the KV-aware router core (`lib/llm/src/kv_router.rs`).

The file shallowly embeds the router orchestration code of `kv_router.rs`
(configuration defaults, the cache-event ingestion loop, `find_best_match`,
the `KvRouter`/`KvPushRouter` `generate` engines) as pure Lean functions.
Components that `kv_router.rs` only calls into (the indexer, the scheduler,
the token-block splitter and the wire protocol types live in sibling modules)
are modelled from the specification; each such definition says so in its
doc comment.

Machine integers are modelled as `Nat`/`Int` (worker ids are `i64`, hence
`Int`; block hashes are `u64` contents used only as opaque keys, hence `Nat`;
the `f64` configuration weights are modelled as `ℚ`, which is exact for the
literals `1.0`/`2.0` the code uses). Streams are modelled as lists, fallible
operations as `Except`/`Option`, and the `expect`-panic in `KvRouter::new`
as `Option.none`.
-/

set_option autoImplicit false

/-- Worker / instance identifier, `i64` in the source. -/
abbrev WorkerId := Int

/-- Modelled from the spec: `LocalBlockHash` (protocols.rs is not under the
sources) — content hash of one token block, an opaque `u64` key. -/
abbrev LocalBlockHash := Nat

/-- A raw wire payload (byte sequence) of one cache-event message. -/
abbrev Payload := List Nat

/-- Modelled from the spec: `OverlapScores` (protocols.rs is not under the
sources) — the per-request map from worker id to matched-block count,
modelled as an association list. -/
structure OverlapScores where
  scores : List (WorkerId × Nat)
deriving DecidableEq

/-- Modelled from the spec: the indexer's internal mapping from block hash to
the set of workers caching that block (indexer.rs is not under the sources),
modelled as an association list from hash to worker list. -/
abbrev KvIndexState := List (LocalBlockHash × List WorkerId)

/-- Whether the index records worker `w` as caching block hash `h`. -/
def workerHasHash (st : KvIndexState) (w : WorkerId) (h : LocalBlockHash) : Bool :=
  match st.lookup h with
  | some ws => ws.contains w
  | none => false

/-- All workers appearing anywhere in the index (the workers a query reports on). -/
def knownWorkers (st : KvIndexState) : List WorkerId :=
  (st.foldr (fun p acc => p.2 ++ acc) []).dedup

/-- Modelled from the spec: the per-worker overlap count of
`KvIndexer::find_matches` (indexer.rs is not under the sources) — the match
run walks the ordered query and stops at the first hash the worker does not
have. -/
def prefixMatchCount (st : KvIndexState) (w : WorkerId) : List LocalBlockHash → Nat
  | [] => 0
  | h :: rest => if workerHasHash st w h then prefixMatchCount st w rest + 1 else 0

/-- Modelled from the spec: `KvIndexer::find_matches` (indexer.rs is not under
the sources) — for each known worker, the count of query hashes matched as a
stop-at-first-miss run over the ordered query. -/
def KvIndexer.find_matches (st : KvIndexState) (query : List LocalBlockHash) : OverlapScores :=
  { scores := (knownWorkers st).map (fun w => (w, prefixMatchCount st w query)) }

/-- Modelled from the spec: the operation carried by a `RouterEvent`
(protocols.rs is not under the sources) — a worker stored or removed blocks. -/
inductive KvCacheEventOp where
  | store
  | remove
deriving DecidableEq

/-- Modelled from the spec: `RouterEvent` (protocols.rs is not under the
sources) — one worker's cache mutation: worker id, operation, affected
block hashes. -/
structure RouterEvent where
  worker_id : WorkerId
  op : KvCacheEventOp
  block_hashes : List LocalBlockHash
deriving DecidableEq

/-- Modelled from the spec: add a worker to one hash's worker set
(store-event application, indexer.rs is not under the sources). -/
def addWorkerToHash (w : WorkerId) (h : LocalBlockHash) : KvIndexState → KvIndexState
  | [] => [(h, [w])]
  | (h2, ws) :: rest =>
    if h2 = h then (h2, if ws.contains w then ws else w :: ws) :: rest
    else (h2, ws) :: addWorkerToHash w h rest

/-- Modelled from the spec: discard a worker from one hash's worker set,
pruning a hash entry left with no workers (remove-event application,
indexer.rs is not under the sources). -/
def removeWorkerFromHash (w : WorkerId) (h : LocalBlockHash) : KvIndexState → KvIndexState
  | [] => []
  | (h2, ws) :: rest =>
    if h2 = h then
      (if (ws.erase w).isEmpty then rest else (h2, ws.erase w) :: rest)
    else (h2, ws) :: removeWorkerFromHash w h rest

/-- Modelled from the spec: apply one `RouterEvent` to the index — store adds
the worker to each listed hash's set, remove discards it. -/
def KvIndexer.apply_event (st : KvIndexState) (e : RouterEvent) : KvIndexState :=
  match e.op with
  | .store => e.block_hashes.foldl (fun s h => addWorkerToHash e.worker_id h s) st
  | .remove => e.block_hashes.foldl (fun s h => removeWorkerFromHash e.worker_id h s) st

/-- Apply a list of events in arrival order. -/
def KvIndexer.apply_events (st : KvIndexState) (events : List RouterEvent) : KvIndexState :=
  events.foldl KvIndexer.apply_event st

/-- The cache-event ingestion loop spawned in `KvRouter::new`
(kv_router.rs lines 138-153): each message payload is deserialized; on
failure the message is skipped with a warning and the loop continues; on
success the event is forwarded to the indexer. The result is the ordered
list of events forwarded to the indexer's channel. -/
def ingestion_forwarded (deserialize : Payload → Option RouterEvent) :
    List Payload → List RouterEvent
  | [] => []
  | msg :: rest =>
    match deserialize msg with
    | some event => event :: ingestion_forwarded deserialize rest
    | none => ingestion_forwarded deserialize rest

/-- Modelled from the spec: the typed scheduler error (scheduler.rs is not
under the sources) — no workers known, or the injected selector failed. -/
inductive KvSchedulerError where
  | noWorkersAvailable
  | selectorRejected
deriving DecidableEq

/-- The user-visible message of a scheduler error. -/
def KvSchedulerError.message : KvSchedulerError → String
  | .noWorkersAvailable => "no workers available"
  | .selectorRejected => "worker selector rejected all candidates"

/-- Modelled from the spec: one entry of `ProcessedEndpoints` (scoring.rs is
not under the sources) — a worker's identity and live load metrics. -/
structure Endpoint where
  worker_id : WorkerId
  gpu_cache_usage : ℚ
  waiting_requests : Nat
deriving DecidableEq

/-- Modelled from the spec: `ProcessedEndpoints` (scoring.rs is not under the
sources) — the snapshot of all known workers' metrics. -/
structure ProcessedEndpoints where
  endpoints : List Endpoint
deriving DecidableEq

/-- Modelled from the spec: `SchedulingRequest` (scheduler.rs is not under the
sources) — the overlap map and input sequence length handed to the selector. -/
structure SchedulingRequest where
  overlap_scores : OverlapScores
  isl_tokens : Nat
deriving DecidableEq

/-- `WorkerSelectionResult`: the selector's verdict — chosen worker id plus
the overlap (in blocks) that produced it. -/
structure WorkerSelectionResult where
  worker_id : WorkerId
  overlap_blocks : Nat
deriving DecidableEq

/-- The `WorkerSelector` capability of kv_router.rs (lines 48-55), modelled as
a function: endpoints, request and block size to a result or a typed error. -/
abbrev WorkerSelector :=
  ProcessedEndpoints → SchedulingRequest → Nat → Except KvSchedulerError WorkerSelectionResult

/-- Modelled from the spec: `KvScheduler::schedule` (scheduler.rs is not under
the sources) — fails with "no workers available" on an empty fleet, propagates
a selector failure, and otherwise returns the selected worker id. -/
def KvScheduler.schedule (selector : WorkerSelector) (block_size : Nat)
    (endpoints : ProcessedEndpoints) (overlap_scores : OverlapScores) (isl_tokens : Nat) :
    Except KvSchedulerError WorkerId :=
  if endpoints.endpoints.isEmpty then .error .noWorkersAvailable
  else
    match selector endpoints { overlap_scores := overlap_scores, isl_tokens := isl_tokens }
        block_size with
    | .error e => .error e
    | .ok result => .ok result.worker_id

/-- KV Router configuration parameters (kv_router.rs lines 57-71); the `f64`
weights are modelled as `ℚ`. The source's doc comment on
`overlap_score_weight` states "Default: 2.0". -/
structure KvRouterConfig where
  overlap_score_weight : ℚ
  gpu_cache_usage_weight : ℚ
  waiting_requests_weight : ℚ
deriving DecidableEq

/-- The default weight the source's doc comment documents for
`overlap_score_weight` (kv_router.rs line 61): 2.0. -/
def documentedOverlapScoreWeightDefault : ℚ := 2

/-- The `Default` impl of `KvRouterConfig` (kv_router.rs lines 73-81): all
three weights are 1.0. -/
def KvRouterConfig.default : KvRouterConfig :=
  { overlap_score_weight := 1
    gpu_cache_usage_weight := 1
    waiting_requests_weight := 1 }

/-- `KvRouterConfig::new` (kv_router.rs lines 86-99): each `None` weight falls
back to the corresponding field of the default configuration. -/
def KvRouterConfig.new (overlap_score_weight : Option ℚ) (gpu_cache_usage_weight : Option ℚ)
    (waiting_requests_weight : Option ℚ) : KvRouterConfig :=
  { overlap_score_weight :=
      overlap_score_weight.getD KvRouterConfig.default.overlap_score_weight
    gpu_cache_usage_weight :=
      gpu_cache_usage_weight.getD KvRouterConfig.default.gpu_cache_usage_weight
    waiting_requests_weight :=
      waiting_requests_weight.getD KvRouterConfig.default.waiting_requests_weight }

/-- Fuel-indexed chunking of a token list into complete blocks of
`block_size`; the fuel (instantiated with the list length) only bounds the
recursion depth. -/
def chunkTokensFuel (block_size : Nat) : Nat → List Nat → List (List Nat)
  | 0, _ => []
  | fuel + 1, ts =>
    if 0 < block_size ∧ block_size ≤ ts.length then
      ts.take block_size :: chunkTokensFuel block_size fuel (ts.drop block_size)
    else []

/-- The complete blocks of a token list: maximal run of disjoint contiguous
chunks of exactly `block_size` tokens from the front. -/
def chunkTokens (block_size : Nat) (ts : List Nat) : List (List Nat) :=
  chunkTokensFuel block_size ts.length ts

/-- Modelled from the spec: `TokenBlockSequence::split_tokens` (tokens.rs is
not under the sources) — splits a token sequence into its complete blocks of
`block_size` plus the trailing block of fewer than `block_size` tokens; the
seed parameterises the block hashing, not the block boundaries. -/
def TokenBlockSequence.split_tokens (tokens : List Nat) (block_size : Nat) (_seed : Nat) :
    List (List Nat) × List Nat :=
  (chunkTokens block_size tokens, tokens.drop (tokens.length / block_size * block_size))

/-- A `KvRouter` (kv_router.rs lines 104-108) holds its fixed block size and
its indexer's state; the scheduler's live inputs (selector, endpoints) and
the external block hasher are passed at each call. -/
structure KvRouter where
  block_size : Nat
  indexer : KvIndexState
deriving DecidableEq

/-- `KvRouter::new` (kv_router.rs lines 111-160): requires the runtime's
primary lease; `.expect("Cannot KV route static workers")` panics when there
is none, modelled as `none`. On success the router starts with an empty
index. -/
def KvRouter.new (primary_lease : Option Unit) (block_size : Nat) : Option KvRouter :=
  match primary_lease with
  | none => none
  | some _ => some { block_size := block_size, indexer := [] }

/-- `KvRouter::find_best_match` (kv_router.rs lines 178-196): split the tokens
into complete blocks with seed 1337, hash the complete blocks, query the
indexer with those hashes, schedule, and report the scheduled worker together
with that worker's entry in the overlap map (0 when absent). The external
block hasher is a parameter mapping a seed and the block list to the block
hash list. -/
def KvRouter.find_best_match (router : KvRouter)
    (hashSeq : Nat → List (List Nat) → List LocalBlockHash) (selector : WorkerSelector)
    (endpoints : ProcessedEndpoints) (tokens : List Nat) :
    Except KvSchedulerError (WorkerId × Nat) :=
  let isl_tokens := tokens.length
  let block_size := router.block_size
  let split := TokenBlockSequence.split_tokens tokens block_size 1337
  let local_block_hashes := hashSeq 1337 split.fst
  let overlap_scores := KvIndexer.find_matches router.indexer local_block_hashes
  match KvScheduler.schedule selector block_size endpoints overlap_scores isl_tokens with
  | .error e => .error e
  | .ok worker_id => .ok (worker_id, (overlap_scores.scores.lookup worker_id).getD 0)

/-- Modelled from the spec: `RouterRequest` (protocols.rs is not under the
sources) — the tokens to route. -/
structure RouterRequest where
  tokens : List Nat
deriving DecidableEq

/-- Modelled from the spec: `RouterResponse` (protocols.rs is not under the
sources) — the chosen worker id. -/
structure RouterResponse where
  worker_id : WorkerId
deriving DecidableEq

/-- The `Annotated` response wrapper: `Annotated::from_data` wraps a payload. -/
structure Annotated (β : Type) where
  data : Option β
deriving DecidableEq

/-- `Annotated::from_data`. -/
def Annotated.from_data {β : Type} (b : β) : Annotated β :=
  { data := some b }

/-- `KvRouter`'s `AsyncEngine::generate` (kv_router.rs lines 206-217): find
the best match for the request's tokens and return a stream (modelled as a
list) holding the single annotated response with the chosen worker id. -/
def KvRouter.generate (router : KvRouter)
    (hashSeq : Nat → List (List Nat) → List LocalBlockHash) (selector : WorkerSelector)
    (endpoints : ProcessedEndpoints) (request : RouterRequest) :
    Except KvSchedulerError (List (Annotated RouterResponse)) :=
  match router.find_best_match hashSeq selector endpoints request.tokens with
  | .error e => .error e
  | .ok (worker_id, _) => .ok [Annotated.from_data { worker_id := worker_id }]

/-- The instance-discovery mode of the backend client (`InstanceSource` in the
runtime crate, not under the sources): a static worker set, or a dynamically
discovered one (the watch channel payload is irrelevant here and dropped). -/
inductive InstanceSource where
  | Static
  | Dynamic
deriving DecidableEq

/-- Modelled from the spec: the fields of `PreprocessedRequest` the router
touches (preprocessor.rs is not under the sources) — the token ids and the
optional `estimated_prefix_hit_num_blocks` annotation; `rest` stands for
every other field, untouched by the router. -/
structure PreprocessedRequest (α : Type) where
  token_ids : List Nat
  estimated_prefix_hit_num_blocks : Option Nat
  rest : α
deriving DecidableEq

/-- The part of the `PushRouter` client that `KvPushRouter::generate`
inspects: its instance source. -/
structure PushRouterClient where
  instance_source : InstanceSource
deriving DecidableEq

/-- `KvPushRouter` (kv_router.rs lines 220-223): the plain push router plus
the `KvRouter` chooser. -/
structure KvPushRouter where
  inner : PushRouterClient
  chooser : KvRouter
deriving DecidableEq

/-- Where `KvPushRouter::generate` dispatched the request: through the plain
static path, or directly to a chosen instance. -/
inductive DispatchOutcome (α : Type) where
  | staticDispatch (request : PreprocessedRequest α)
  | directDispatch (request : PreprocessedRequest α) (instance_id : WorkerId)
deriving DecidableEq

/-- `KvPushRouter`'s `AsyncEngine::generate` (kv_router.rs lines 238-254): on
a static instance source, dispatch the request unchanged through the static
path; on a dynamic one, find the best match for the request's token ids,
stamp `estimated_prefix_hit_num_blocks` with the overlap amount, and dispatch
directly to the chosen instance. -/
def KvPushRouter.generate {α : Type} (router : KvPushRouter)
    (hashSeq : Nat → List (List Nat) → List LocalBlockHash) (selector : WorkerSelector)
    (endpoints : ProcessedEndpoints) (request : PreprocessedRequest α) :
    Except KvSchedulerError (DispatchOutcome α) :=
  match router.inner.instance_source with
  | .Static => .ok (.staticDispatch request)
  | .Dynamic =>
    match router.chooser.find_best_match hashSeq selector endpoints request.token_ids with
    | .error e => .error e
    | .ok (instance_id, overlap_amount) =>
      .ok (.directDispatch
        { request with estimated_prefix_hit_num_blocks := some overlap_amount } instance_id)

/-- A selector that picks the first endpoint of the snapshot (used to
instantiate theorems at concrete inputs). -/
def firstWorkerSelector : WorkerSelector :=
  fun workers request _block_size =>
    match workers.endpoints with
    | [] => .error .noWorkersAvailable
    | e :: _ =>
      .ok { worker_id := e.worker_id
            overlap_blocks := (request.overlap_scores.scores.lookup e.worker_id).getD 0 }

/-- A selector that rejects every candidate. -/
def rejectAllSelector : WorkerSelector :=
  fun _ _ _ => .error .selectorRejected

/-- A selector that always picks a fixed worker id. -/
def constSelector (w : WorkerId) : WorkerSelector :=
  fun _ _ _ => .ok { worker_id := w, overlap_blocks := 0 }

/-- A concrete length-preserving block hasher (sums the block's tokens onto
the seed), used to instantiate theorems at concrete inputs. -/
def sumHashSeq : Nat → List (List Nat) → List LocalBlockHash :=
  fun seed blocks => blocks.map (fun b => b.foldl (fun a t => a + t) seed)

/-- A concrete payload decoder for instantiating the ingestion loop: a
three-element payload `[w, o, h]` with `o ≤ 1` decodes to an event of worker
`w`, op store (0) or remove (1), and the single hash `h`; everything else is
malformed. -/
def demoDeserialize : Payload → Option RouterEvent
  | [w, o, h] =>
    if o = 0 then some { worker_id := Int.ofNat w, op := .store, block_hashes := [h] }
    else if o = 1 then some { worker_id := Int.ofNat w, op := .remove, block_hashes := [h] }
    else none
  | _ => none

/-! ## Helper lemmas -/

theorem lookup_map_pair {β : Type} (f : WorkerId → β) :
    ∀ (ws : List WorkerId) (w : WorkerId), w ∈ ws →
      (ws.map (fun x => (x, f x))).lookup w = some (f w) := by
  intro ws
  induction ws with
  | nil => intro w hw; cases hw
  | cons a t ih =>
    intro w hw
    by_cases h : w = a
    · subst h
      simp [List.lookup]
    · rcases List.mem_cons.mp hw with h1 | h1
      · exact absurd h1 h
      · have hne : (w == a) = false := beq_eq_false_iff_ne.mpr h
        simp only [List.map_cons, List.lookup, hne]
        exact ih w h1

theorem prefixMatchCount_eq_takeWhile (st : KvIndexState) (w : WorkerId) :
    ∀ q : List LocalBlockHash,
      prefixMatchCount st w q = (q.takeWhile (fun h => workerHasHash st w h)).length := by
  intro q
  induction q with
  | nil => rfl
  | cons h rest ih =>
    by_cases hh : workerHasHash st w h
    · simp [prefixMatchCount, List.takeWhile_cons, hh, ih]
    · simp [prefixMatchCount, List.takeWhile_cons, hh]

theorem ingestion_forwarded_append (deserialize : Payload → Option RouterEvent) :
    ∀ a b : List Payload,
      ingestion_forwarded deserialize (a ++ b)
        = ingestion_forwarded deserialize a ++ ingestion_forwarded deserialize b := by
  intro a b
  induction a with
  | nil => rfl
  | cons m rest ih =>
    cases hm : deserialize m <;> simp [ingestion_forwarded, hm, ih]

theorem chunkTokensFuel_length (block_size : Nat) (hbs : 0 < block_size) :
    ∀ (fuel : Nat) (ts : List Nat), ts.length ≤ fuel →
      (chunkTokensFuel block_size fuel ts).length = ts.length / block_size := by
  intro fuel
  induction fuel with
  | zero =>
    intro ts hts
    have h0 : ts.length = 0 := Nat.le_zero.mp hts
    simp [chunkTokensFuel, h0]
  | succ fuel ih =>
    intro ts hts
    by_cases hc : block_size ≤ ts.length
    · have hdrop : (ts.drop block_size).length ≤ fuel := by
        rw [List.length_drop]; omega
      simp only [chunkTokensFuel]
      rw [if_pos (And.intro hbs hc), List.length_cons, ih (ts.drop block_size) hdrop,
        List.length_drop]
      conv_rhs => rw [Nat.div_eq]
      rw [if_pos (And.intro hbs hc)]
    · simp only [chunkTokensFuel]
      rw [if_neg (fun hcon => hc hcon.2), Nat.div_eq_of_lt (Nat.lt_of_not_le hc)]
      rfl

theorem chunkTokensFuel_join (block_size : Nat) (hbs : 0 < block_size) :
    ∀ (fuel : Nat) (ts : List Nat), ts.length ≤ fuel →
      (chunkTokensFuel block_size fuel ts).flatten
        = ts.take (ts.length / block_size * block_size) := by
  intro fuel
  induction fuel with
  | zero =>
    intro ts hts
    have h0 : ts = [] := List.eq_nil_of_length_eq_zero (Nat.le_zero.mp hts)
    subst h0
    simp [chunkTokensFuel]
  | succ fuel ih =>
    intro ts hts
    by_cases hc : block_size ≤ ts.length
    · have hdrop : (ts.drop block_size).length ≤ fuel := by
        rw [List.length_drop]; omega
      have hq : ts.length / block_size = (ts.length - block_size) / block_size + 1 := by
        conv_lhs => rw [Nat.div_eq]
        rw [if_pos (And.intro hbs hc)]
      simp only [chunkTokensFuel]
      rw [if_pos (And.intro hbs hc), List.flatten_cons, ih (ts.drop block_size) hdrop,
        List.length_drop, hq]
      have hmul : ((ts.length - block_size) / block_size + 1) * block_size
          = block_size + (ts.length - block_size) / block_size * block_size := by ring
      rw [hmul, List.take_add]
    · simp only [chunkTokensFuel]
      rw [if_neg (fun hcon => hc hcon.2), Nat.div_eq_of_lt (Nat.lt_of_not_le hc)]
      simp

theorem chunkTokensFuel_block_length (block_size : Nat) :
    ∀ (fuel : Nat) (ts : List Nat) (b : List Nat),
      b ∈ chunkTokensFuel block_size fuel ts → b.length = block_size := by
  intro fuel
  induction fuel with
  | zero =>
    intro ts b hb
    simp [chunkTokensFuel] at hb
  | succ fuel ih =>
    intro ts b hb
    by_cases hc : 0 < block_size ∧ block_size ≤ ts.length
    · simp only [chunkTokensFuel] at hb
      rw [if_pos hc] at hb
      rcases List.mem_cons.mp hb with h1 | h1
      · subst h1
        rw [List.length_take]
        exact Nat.min_eq_left hc.2
      · exact ih (ts.drop block_size) b h1
    · simp only [chunkTokensFuel] at hb
      rw [if_neg hc] at hb
      simp at hb

theorem chunkTokens_length (block_size : Nat) (hbs : 0 < block_size) (ts : List Nat) :
    (chunkTokens block_size ts).length = ts.length / block_size :=
  chunkTokensFuel_length block_size hbs ts.length ts (Nat.le_refl _)

theorem chunkTokens_join (block_size : Nat) (hbs : 0 < block_size) (ts : List Nat) :
    (chunkTokens block_size ts).flatten = ts.take (ts.length / block_size * block_size) :=
  chunkTokensFuel_join block_size hbs ts.length ts (Nat.le_refl _)

theorem chunkTokens_block_length (block_size : Nat) (ts : List Nat) (b : List Nat)
    (hb : b ∈ chunkTokens block_size ts) : b.length = block_size :=
  chunkTokensFuel_block_length block_size ts.length ts b hb

theorem split_tokens_snd_length (tokens : List Nat) (block_size seed : Nat) :
    (TokenBlockSequence.split_tokens tokens block_size seed).snd.length
      = tokens.length % block_size := by
  have hdm : tokens.length / block_size * block_size + tokens.length % block_size
      = tokens.length := Nat.div_add_mod' tokens.length block_size
  simp only [TokenBlockSequence.split_tokens, List.length_drop]
  have h2 : tokens.length
      = tokens.length % block_size + tokens.length / block_size * block_size := by
    rw [Nat.add_comm]
    exact hdm.symm
  exact Nat.sub_eq_of_eq_add h2

theorem split_tokens_append (tokens : List Nat) (block_size seed : Nat) (hbs : 0 < block_size) :
    (TokenBlockSequence.split_tokens tokens block_size seed).fst.flatten
      ++ (TokenBlockSequence.split_tokens tokens block_size seed).snd = tokens := by
  simp only [TokenBlockSequence.split_tokens]
  rw [chunkTokens_join block_size hbs tokens]
  exact List.take_append_drop _ _

/-! ## Claim theorems -/

/-- Claim C1: for every ordered query of block hashes and every worker the
index reports on, the overlap count `KvIndexer.find_matches` returns for that
worker equals the length of the longest prefix of the query all of whose
hashes are present in that worker's cache — the match run stops at the first
hash the worker does not have. -/
theorem find_matches_prefix_overlap (st : KvIndexState) (query : List LocalBlockHash)
    (w : WorkerId) (hw : w ∈ knownWorkers st) :
    (KvIndexer.find_matches st query).scores.lookup w
      = some ((query.takeWhile (fun h => workerHasHash st w h)).length) := by
  have h := lookup_map_pair (fun x => prefixMatchCount st x query) (knownWorkers st) w hw
  unfold KvIndexer.find_matches
  refine h.trans ?_
  simp only [prefixMatchCount_eq_takeWhile]

/-- Witness for C1: with a worker 7 caching hashes 1 and 2 but not 3, the
query `[1, 2, 3]` reports overlap 2 for worker 7 — not 3 and not 0. -/
theorem find_matches_prefix_overlap_witness :
    (KvIndexer.find_matches [(1, [7]), (2, [7])] [1, 2, 3]).scores.lookup 7 = some 2 :=
  (find_matches_prefix_overlap [(1, [7]), (2, [7])] [1, 2, 3] 7 (by decide)).trans (by decide)

/-- Claim C2: with a static instance source, `KvPushRouter::generate`
dispatches the request unchanged through the plain static path; the outcome
is independent of the chooser's indexer state, the selector, the endpoint
snapshot and the block hasher, so the KV machinery is never consulted and the
request is not annotated. -/
theorem kv_push_router_static_bypasses_kv {α : Type} (chooser chooser2 : KvRouter)
    (hashSeq hashSeq2 : Nat → List (List Nat) → List LocalBlockHash)
    (selector selector2 : WorkerSelector) (endpoints endpoints2 : ProcessedEndpoints)
    (request : PreprocessedRequest α) :
    KvPushRouter.generate ⟨⟨.Static⟩, chooser⟩ hashSeq selector endpoints request
      = .ok (.staticDispatch request) ∧
    KvPushRouter.generate ⟨⟨.Static⟩, chooser⟩ hashSeq selector endpoints request
      = KvPushRouter.generate ⟨⟨.Static⟩, chooser2⟩ hashSeq2 selector2 endpoints2 request :=
  ⟨rfl, rfl⟩

/-- Claim C7: `KvRouterConfig::new` sets each weight independently —
`some v` becomes `v` and `none` falls back to that field's default — and the
default constructor sets all three weights to 1.0, which differs from the
2.0 the doc comment on `overlap_score_weight` documents. -/
theorem kv_router_config_defaults (a b c : Option ℚ) :
    (KvRouterConfig.new a b c).overlap_score_weight
      = a.getD KvRouterConfig.default.overlap_score_weight ∧
    (KvRouterConfig.new a b c).gpu_cache_usage_weight
      = b.getD KvRouterConfig.default.gpu_cache_usage_weight ∧
    (KvRouterConfig.new a b c).waiting_requests_weight
      = c.getD KvRouterConfig.default.waiting_requests_weight ∧
    KvRouterConfig.default.overlap_score_weight = 1 ∧
    KvRouterConfig.default.gpu_cache_usage_weight = 1 ∧
    KvRouterConfig.default.waiting_requests_weight = 1 ∧
    KvRouterConfig.default.overlap_score_weight ≠ documentedOverlapScoreWeightDefault :=
  ⟨rfl, rfl, rfl, rfl, rfl, rfl, by decide⟩

/-- Claim C8: `KvRouter::new` without a primary lease (a static, non-leased
deployment) is a fatal construction-time failure — it never produces a
router. -/
theorem kv_router_new_requires_lease (block_size : Nat) :
    KvRouter.new none block_size = none ∧
    ∀ router : KvRouter, KvRouter.new none block_size ≠ some router :=
  ⟨rfl, fun _ h => Option.noConfusion h⟩

/-- Claim C4: `KvScheduler.schedule` fails with the typed
"no workers available" error on an empty fleet (never returning a worker id),
propagates a failure of the injected selector unchanged, and only returns a
worker id when the fleet is non-empty. -/
theorem kv_scheduler_schedule_error_paths (selector : WorkerSelector) (block_size : Nat)
    (endpoints : ProcessedEndpoints) (overlap_scores : OverlapScores) (isl_tokens : Nat) :
    (endpoints.endpoints = [] →
      KvScheduler.schedule selector block_size endpoints overlap_scores isl_tokens
        = .error .noWorkersAvailable) ∧
    (∀ e : KvSchedulerError, endpoints.endpoints ≠ [] →
      selector endpoints { overlap_scores := overlap_scores, isl_tokens := isl_tokens }
          block_size = .error e →
      KvScheduler.schedule selector block_size endpoints overlap_scores isl_tokens
        = .error e) ∧
    (∀ w : WorkerId,
      KvScheduler.schedule selector block_size endpoints overlap_scores isl_tokens = .ok w →
      endpoints.endpoints ≠ []) := by
  refine ⟨?_, ?_, ?_⟩
  · intro he
    simp [KvScheduler.schedule, he]
  · intro e hne hsel
    simp [KvScheduler.schedule, hne, hsel]
  · intro w hok he
    simp [KvScheduler.schedule, he] at hok

/-- Witness for C4: on an empty fleet `schedule` returns the
"no workers available" error, and a rejecting selector's error is propagated
on a non-empty fleet. -/
theorem kv_scheduler_schedule_error_paths_witness :
    KvScheduler.schedule rejectAllSelector 4 ⟨[]⟩ ⟨[]⟩ 5 = .error .noWorkersAvailable ∧
    KvScheduler.schedule rejectAllSelector 4 ⟨[⟨7, 0, 0⟩]⟩ ⟨[]⟩ 5
      = .error .selectorRejected := by
  constructor
  · exact (kv_scheduler_schedule_error_paths rejectAllSelector 4 ⟨[]⟩ ⟨[]⟩ 5).1 rfl
  · exact (kv_scheduler_schedule_error_paths rejectAllSelector 4 ⟨[⟨7, 0, 0⟩]⟩ ⟨[]⟩ 5).2.1
      .selectorRejected (by simp) rfl

/-- Claim C5: a message whose payload fails to deserialize is skipped and the
ingestion loop continues: the events forwarded from a stream with a malformed
message in the middle are exactly those forwarded from the prefix and from
the suffix, and the index state obtained by applying them is the same as if
the malformed message had not been there — every valid event after it is
still applied. -/
theorem ingestion_skips_malformed (deserialize : Payload → Option RouterEvent)
    (pre post : List Payload) (bad : Payload) (st : KvIndexState)
    (hbad : deserialize bad = none) :
    ingestion_forwarded deserialize (pre ++ bad :: post)
      = ingestion_forwarded deserialize pre ++ ingestion_forwarded deserialize post ∧
    KvIndexer.apply_events st (ingestion_forwarded deserialize (pre ++ bad :: post))
      = KvIndexer.apply_events st (ingestion_forwarded deserialize (pre ++ post)) := by
  have h1 : ingestion_forwarded deserialize (pre ++ bad :: post)
      = ingestion_forwarded deserialize pre ++ ingestion_forwarded deserialize post := by
    rw [ingestion_forwarded_append]
    simp [ingestion_forwarded, hbad]
  refine ⟨h1, ?_⟩
  rw [h1, ← ingestion_forwarded_append]

/-- Witness for C5: a malformed payload between two valid store events is
dropped, and both valid events still reach the index — afterwards hash 5 is
cached by workers 2 and 1. -/
theorem ingestion_skips_malformed_witness :
    demoDeserialize [9, 9, 9, 9] = none ∧
    ingestion_forwarded demoDeserialize ([[1, 0, 5]] ++ [9, 9, 9, 9] :: [[2, 0, 5]])
      = ingestion_forwarded demoDeserialize [[1, 0, 5]]
        ++ ingestion_forwarded demoDeserialize [[2, 0, 5]] ∧
    KvIndexer.apply_events []
        (ingestion_forwarded demoDeserialize ([[1, 0, 5]] ++ [9, 9, 9, 9] :: [[2, 0, 5]]))
      = [(5, [2, 1])] := by
  have h := ingestion_skips_malformed demoDeserialize [[1, 0, 5]] [[2, 0, 5]] [9, 9, 9, 9] []
    (by decide)
  exact ⟨by decide, h.1, h.2.trans (by decide)⟩

/-- Claim C6: `find_best_match` splits the tokens into complete blocks of the
router's block size with the fixed seed 1337 and queries the indexer with
only the hashes of those complete blocks: for any length-preserving block
hasher the query holds exactly `tokens.length / block_size` hashes, every
complete block has exactly `block_size` tokens, and the trailing block of
`tokens.length % block_size` tokens contributes no hash. -/
theorem find_best_match_complete_blocks (router : KvRouter)
    (hashSeq : Nat → List (List Nat) → List LocalBlockHash) (selector : WorkerSelector)
    (endpoints : ProcessedEndpoints) (tokens : List Nat)
    (hbs : 0 < router.block_size)
    (hlen : ∀ blocks : List (List Nat), (hashSeq 1337 blocks).length = blocks.length) :
    (hashSeq 1337 (TokenBlockSequence.split_tokens tokens router.block_size 1337).fst).length
      = tokens.length / router.block_size ∧
    (∀ b ∈ (TokenBlockSequence.split_tokens tokens router.block_size 1337).fst,
      b.length = router.block_size) ∧
    (TokenBlockSequence.split_tokens tokens router.block_size 1337).snd.length
      = tokens.length % router.block_size ∧
    (TokenBlockSequence.split_tokens tokens router.block_size 1337).fst.flatten
      ++ (TokenBlockSequence.split_tokens tokens router.block_size 1337).snd = tokens ∧
    router.find_best_match hashSeq selector endpoints tokens
      = (match KvScheduler.schedule selector router.block_size endpoints
            (KvIndexer.find_matches router.indexer
              (hashSeq 1337 (TokenBlockSequence.split_tokens tokens router.block_size 1337).fst))
            tokens.length with
        | .error e => .error e
        | .ok w => .ok (w,
            ((KvIndexer.find_matches router.indexer
              (hashSeq 1337 (TokenBlockSequence.split_tokens tokens router.block_size 1337).fst)).scores.lookup
              w).getD 0)) := by
  refine ⟨?_, ?_, ?_, ?_, rfl⟩
  · rw [hlen]
    simp only [TokenBlockSequence.split_tokens]
    exact chunkTokens_length router.block_size hbs tokens
  · intro b hb
    simp only [TokenBlockSequence.split_tokens] at hb
    exact chunkTokens_block_length router.block_size tokens b hb
  · exact split_tokens_snd_length tokens router.block_size 1337
  · exact split_tokens_append tokens router.block_size 1337 hbs

/-- Witness for C6: for block size 4 and the nine tokens `[1..9]`, the query
holds exactly 2 hashes (the two complete blocks) and the trailing token `[9]`
contributes none. -/
theorem find_best_match_complete_blocks_witness :
    (sumHashSeq 1337
        (TokenBlockSequence.split_tokens [1, 2, 3, 4, 5, 6, 7, 8, 9] 4 1337).fst).length = 2 ∧
    (TokenBlockSequence.split_tokens [1, 2, 3, 4, 5, 6, 7, 8, 9] 4 1337).snd.length = 1 := by
  have h := find_best_match_complete_blocks ⟨4, []⟩ sumHashSeq rejectAllSelector ⟨[]⟩
    [1, 2, 3, 4, 5, 6, 7, 8, 9] (by decide)
    (fun blocks => by simp [sumHashSeq])
  exact ⟨h.1.trans (by decide), h.2.2.1.trans (by decide)⟩

/-- Claim C3: with a dynamic instance source, `KvPushRouter::generate` stamps
the request's `estimated_prefix_hit_num_blocks` with `some` of the overlap
amount returned by `find_best_match`, dispatches directly to the worker id
`find_best_match` selected, and leaves the token ids and every other field
of the request unchanged. -/
theorem kv_push_router_dynamic_annotates {α : Type} (chooser : KvRouter)
    (hashSeq : Nat → List (List Nat) → List LocalBlockHash) (selector : WorkerSelector)
    (endpoints : ProcessedEndpoints) (request : PreprocessedRequest α)
    (worker_id : WorkerId) (overlap_amount : Nat)
    (h : chooser.find_best_match hashSeq selector endpoints request.token_ids
      = .ok (worker_id, overlap_amount)) :
    KvPushRouter.generate ⟨⟨.Dynamic⟩, chooser⟩ hashSeq selector endpoints request
      = .ok (.directDispatch
          { token_ids := request.token_ids
            estimated_prefix_hit_num_blocks := some overlap_amount
            rest := request.rest } worker_id) := by
  cases request with
  | mk t e r => simp [KvPushRouter.generate, h]

/-- Witness for C3: a concrete dynamic dispatch — worker 7 caches the hash of
the request's one complete block, `find_best_match` returns `(7, 1)`, and the
dispatched request carries `estimated_prefix_hit_num_blocks = some 1` with
all other fields unchanged. -/
theorem kv_push_router_dynamic_annotates_witness :
    KvPushRouter.generate ⟨⟨.Dynamic⟩, ⟨4, [(1347, [7])]⟩⟩ sumHashSeq firstWorkerSelector
        ⟨[⟨7, 0, 0⟩]⟩
        ({ token_ids := [1, 2, 3, 4, 9], estimated_prefix_hit_num_blocks := none, rest := 0 }
          : PreprocessedRequest Nat)
      = .ok (.directDispatch
          { token_ids := [1, 2, 3, 4, 9], estimated_prefix_hit_num_blocks := some 1, rest := 0 }
          7) :=
  kv_push_router_dynamic_annotates ⟨4, [(1347, [7])]⟩ sumHashSeq firstWorkerSelector
    ⟨[⟨7, 0, 0⟩]⟩
    { token_ids := [1, 2, 3, 4, 9], estimated_prefix_hit_num_blocks := none, rest := 0 }
    7 1 (by rfl)

/-- Claim C9: whenever `KvRouter`'s `generate` succeeds, the returned stream
holds exactly one response — the annotated worker id that `find_best_match`
selected — and nothing else. -/
theorem kv_router_generate_single_response (router : KvRouter)
    (hashSeq : Nat → List (List Nat) → List LocalBlockHash) (selector : WorkerSelector)
    (endpoints : ProcessedEndpoints) (request : RouterRequest)
    (responses : List (Annotated RouterResponse))
    (h : router.generate hashSeq selector endpoints request = .ok responses) :
    responses.length = 1 ∧
    ∃ worker_id overlap_amount,
      router.find_best_match hashSeq selector endpoints request.tokens
        = .ok (worker_id, overlap_amount) ∧
      responses = [Annotated.from_data { worker_id := worker_id }] := by
  unfold KvRouter.generate at h
  cases hm : router.find_best_match hashSeq selector endpoints request.tokens with
  | error e =>
    rw [hm] at h
    cases h
  | ok p =>
    cases p with
    | mk w ov =>
      rw [hm] at h
      cases h
      exact ⟨rfl, w, ov, rfl, rfl⟩

/-- Witness for C9: a concrete successful routing call returns the length-one
stream holding worker 3. -/
theorem kv_router_generate_single_response_witness :
    ([Annotated.from_data ({ worker_id := 3 } : RouterResponse)]).length = 1 ∧
    ∃ worker_id overlap_amount,
      KvRouter.find_best_match ⟨2, [(1340, [3])]⟩ sumHashSeq firstWorkerSelector
          ⟨[⟨3, 0, 0⟩]⟩ [1, 2] = .ok (worker_id, overlap_amount) ∧
      ([Annotated.from_data ({ worker_id := 3 } : RouterResponse)])
        = [Annotated.from_data { worker_id := worker_id }] :=
  kv_router_generate_single_response ⟨2, [(1340, [3])]⟩ sumHashSeq firstWorkerSelector
    ⟨[⟨3, 0, 0⟩]⟩ ⟨[1, 2]⟩ [Annotated.from_data { worker_id := 3 }] (by rfl)

/-- Claim C10: when scheduling succeeds but the chosen worker has no entry in
the overlap map the indexer returned, `find_best_match` still succeeds and
reports overlap 0, so the dynamically dispatched request carries
`estimated_prefix_hit_num_blocks = some 0` rather than no annotation. -/
theorem find_best_match_absent_worker_zero {α : Type} (chooser : KvRouter)
    (hashSeq : Nat → List (List Nat) → List LocalBlockHash) (selector : WorkerSelector)
    (endpoints : ProcessedEndpoints) (request : PreprocessedRequest α) (worker_id : WorkerId)
    (hsched : KvScheduler.schedule selector chooser.block_size endpoints
        (KvIndexer.find_matches chooser.indexer
          (hashSeq 1337
            (TokenBlockSequence.split_tokens request.token_ids chooser.block_size 1337).fst))
        request.token_ids.length = .ok worker_id)
    (habsent : (KvIndexer.find_matches chooser.indexer
        (hashSeq 1337
          (TokenBlockSequence.split_tokens request.token_ids chooser.block_size 1337).fst)).scores.lookup
        worker_id = none) :
    chooser.find_best_match hashSeq selector endpoints request.token_ids
      = .ok (worker_id, 0) ∧
    KvPushRouter.generate ⟨⟨.Dynamic⟩, chooser⟩ hashSeq selector endpoints request
      = .ok (.directDispatch
          { request with estimated_prefix_hit_num_blocks := some 0 } worker_id) := by
  have h1 : chooser.find_best_match hashSeq selector endpoints request.token_ids
      = .ok (worker_id, 0) := by
    unfold KvRouter.find_best_match
    simp only [hsched, habsent]
    rfl
  refine ⟨h1, ?_⟩
  simp [KvPushRouter.generate, h1]

/-- Witness for C10: the selector fixes worker 42, which the overlap map (it
only mentions worker 7) has no entry for; the match succeeds with overlap 0
and the dispatched request is annotated with `some 0`. -/
theorem find_best_match_absent_worker_zero_witness :
    KvRouter.find_best_match ⟨4, [(1347, [7])]⟩ sumHashSeq (constSelector 42) ⟨[⟨42, 0, 0⟩]⟩
        [1, 2, 3, 4, 9] = .ok (42, 0) ∧
    KvPushRouter.generate ⟨⟨.Dynamic⟩, ⟨4, [(1347, [7])]⟩⟩ sumHashSeq (constSelector 42)
        ⟨[⟨42, 0, 0⟩]⟩
        ({ token_ids := [1, 2, 3, 4, 9], estimated_prefix_hit_num_blocks := none, rest := 0 }
          : PreprocessedRequest Nat)
      = .ok (.directDispatch
          { token_ids := [1, 2, 3, 4, 9], estimated_prefix_hit_num_blocks := some 0, rest := 0 }
          42) :=
  find_best_match_absent_worker_zero ⟨4, [(1347, [7])]⟩ sumHashSeq (constSelector 42)
    ⟨[⟨42, 0, 0⟩]⟩
    { token_ids := [1, 2, 3, 4, 9], estimated_prefix_hit_num_blocks := none, rest := 0 }
    42 (by rfl) (by rfl)
